import Mathlib

/-!
Shallow embedding of the coverage-prediction core of Leaflet.Antenna
(src/Leaflet.Antenna.js), together with proofs about it.

Modelling conventions:
* JavaScript double-precision numbers are modelled as exact real numbers,
  extended with the special values Infinity, -Infinity and NaN through the
  type `JSNum` where those values can arise (the link-budget arithmetic).
  Rounding of IEEE doubles is idealised away, but the finite range is not
  where it matters: `Math.pow(10, e)` overflows to Infinity above the
  largest double and underflows to 0 below the smallest positive double,
  modelled by the `dblMax` / `dblMinPos` thresholds.
* Inside the per-ray classifier, a terrain elevation is `Option ℝ`:
  `none` models NaN (the unavailable-terrain sentinel returned by
  `getElevationAtPointRGB`).  Any JS comparison involving NaN is false,
  which `jsLe` reproduces.
* The terrain provider composed with the geodesic projection is modelled,
  per ray, as a function from the sample distance to the elevation:
  `elevAt d` stands for `getElevationAtPointRGB (destination antCords
  (antPointDir + antennaAngle) d)`.
-/

open Classical

namespace LeafletAntenna

/-- A JavaScript number: a finite real, one of the two infinities, or NaN. -/
inductive JSNum where
  | fin (x : ℝ)
  | posInf
  | negInf
  | nan

/-- JS addition on `JSNum` (`Infinity + -Infinity` is NaN, NaN propagates). -/
def jsAdd : JSNum → JSNum → JSNum
  | .fin x, .fin y => .fin (x + y)
  | .nan, _ => .nan
  | _, .nan => .nan
  | .posInf, .negInf => .nan
  | .negInf, .posInf => .nan
  | .posInf, _ => .posInf
  | _, .posInf => .posInf
  | .negInf, _ => .negInf
  | _, .negInf => .negInf

/-- JS negation on `JSNum`. -/
def jsNeg : JSNum → JSNum
  | .fin x => .fin (-x)
  | .posInf => .negInf
  | .negInf => .posInf
  | .nan => .nan

/-- JS subtraction `a - b`, defined as `a + (-b)` (same value table as JS). -/
def jsSub (a b : JSNum) : JSNum := jsAdd a (jsNeg b)

/-- JS division on `JSNum` (division by zero gives a signed infinity or NaN;
zero-sign subtleties of IEEE are idealised: `x / 0` takes the sign of `x`). -/
noncomputable def jsDiv : JSNum → JSNum → JSNum
  | .fin x, .fin y =>
      if y = 0 then (if x = 0 then .nan else if 0 < x then .posInf else .negInf)
      else .fin (x / y)
  | .nan, _ => .nan
  | _, .nan => .nan
  | .fin _, .posInf => .fin 0
  | .fin _, .negInf => .fin 0
  | .posInf, .fin y => if 0 ≤ y then .posInf else .negInf
  | .negInf, .fin y => if 0 ≤ y then .negInf else .posInf
  | .posInf, _ => .nan
  | .negInf, _ => .nan

/-- JS `Math.log10` on `JSNum`: `log10 0 = -Infinity`, negative arguments give
NaN, `log10 Infinity = Infinity`. -/
noncomputable def jsLog10 : JSNum → JSNum
  | .fin x => if 0 < x then .fin (Real.logb 10 x) else if x = 0 then .negInf else .nan
  | .posInf => .posInf
  | .negInf => .nan
  | .nan => .nan

/-- The largest finite IEEE double, `Number.MAX_VALUE` = (2 - 2^-52)·2^1023
= 2^1024 - 2^971 ≈ 1.7976931348623157e308. -/
noncomputable def dblMax : ℝ := 2 ^ 1024 - 2 ^ 971

/-- The smallest positive IEEE double (the subnormal 2^-1074 ≈ 4.9e-324). -/
noncomputable def dblMinPos : ℝ := 1 / 2 ^ 1074

/-- JS `Math.pow(10, e)` on `JSNum`: `10 ^ Infinity = Infinity`,
`10 ^ -Infinity = 0`, `10 ^ NaN = NaN`.  A finite exponent uses the real
power folded into the range of IEEE doubles: a value above the largest
finite double overflows to Infinity (e ≳ 308.25) and a value below the
smallest positive double underflows to +0 (e ≲ -323.6); in range the value
is idealised to the exact real (round-to-nearest, and with it the one-ulp
rounding at the two range boundaries, is not modelled). -/
noncomputable def jsPow10 : JSNum → JSNum
  | .fin x =>
      if dblMax < (10 : ℝ) ^ x then .posInf
      else if (10 : ℝ) ^ x < dblMinPos then .fin 0
      else .fin ((10 : ℝ) ^ x)
  | .posInf => .posInf
  | .negInf => .fin 0
  | .nan => .nan

/-- Embedding of `maxDistance` (src/Leaflet.Antenna.js line 42-47) on JS
numbers, so that non-positive frequencies and undefined pattern entries
(which enter as NaN) follow the JS value semantics:
`Math.pow(10, (maxSignalLoss / 20 - 1.62238 - Math.log10(frequency)))` with
`maxSignalLoss = outputPowerTXAntenna + gainTxAntenna + gainRxAntenna +
sensitivityRXAntenna`.  The function is total: no error is ever raised. -/
noncomputable def maxDistanceJS (frequency outputPowerTXAntenna sensitivityRXAntenna
    gainTxAntenna gainRxAntenna : JSNum) : JSNum :=
  jsPow10 (jsSub
    (jsSub
      (jsDiv (jsAdd (jsAdd (jsAdd outputPowerTXAntenna gainTxAntenna) gainRxAntenna)
        sensitivityRXAntenna) (.fin 20))
      (.fin 1.62238))
    (jsLog10 frequency))

/-- The value of `maxDistance` on finite inputs with positive frequency,
as a real number: `10 ^ (budget / 20 - 1.62238 - log10 frequency)`. -/
noncomputable def maxDistanceR (frequency outputPowerTXAntenna sensitivityRXAntenna
    gainTxAntenna gainRxAntenna : ℝ) : ℝ :=
  (10 : ℝ) ^ ((outputPowerTXAntenna + gainTxAntenna + gainRxAntenna +
    sensitivityRXAntenna) / 20 - 1.62238 - Real.logb 10 frequency)

/-- Embedding of `freeSpacePathLoss` (src/Leaflet.Antenna.js line 57-61). -/
noncomputable def freeSpacePathLoss (distance frequency gainTxAntenna gainRxAntenna : ℝ) : ℝ :=
  20 * Real.logb 10 distance + 20 * Real.logb 10 frequency + 32.44778
    - gainTxAntenna - gainRxAntenna

theorem maxDistanceJS_pos_freq (f op sens gtx grx : ℝ) (hf : 0 < f) :
    maxDistanceJS (.fin f) (.fin op) (.fin sens) (.fin gtx) (.fin grx) =
      jsPow10 (.fin ((op + gtx + grx + sens) / 20 - 1.62238 - Real.logb 10 f)) := by
  simp only [maxDistanceJS, jsAdd, jsDiv, jsSub, jsNeg, jsLog10, if_pos hf]
  norm_num
  ring_nf

theorem dblMinPos_le_dblMax : dblMinPos ≤ dblMax := by
  unfold dblMinPos dblMax
  norm_num

theorem maxDistanceJS_fin (f op sens gtx grx : ℝ) (hf : 0 < f)
    (hlo : dblMinPos ≤ maxDistanceR f op sens gtx grx)
    (hhi : maxDistanceR f op sens gtx grx ≤ dblMax) :
    maxDistanceJS (.fin f) (.fin op) (.fin sens) (.fin gtx) (.fin grx) =
      .fin (maxDistanceR f op sens gtx grx) := by
  unfold maxDistanceR at hlo hhi ⊢
  rw [maxDistanceJS_pos_freq f op sens gtx grx hf]
  simp only [jsPow10]
  rw [if_neg (not_lt.mpr hhi), if_neg (not_lt.mpr hlo)]

theorem maxDistanceR_pos (f op sens gtx grx : ℝ) :
    0 < maxDistanceR f op sens gtx grx :=
  Real.rpow_pos_of_pos (by norm_num) _

/-- Truncation toward zero, as used by the JS `%` operator. -/
noncomputable def jsTrunc (x : ℝ) : ℤ :=
  if 0 ≤ x then ⌊x⌋ else ⌈x⌉

/-- The JS remainder operator `a % n`: the result has the sign of the
dividend (`a - n * trunc (a / n)`), unlike the mathematical modulus. -/
noncomputable def jsMod (a n : ℝ) : ℝ :=
  a - n * (jsTrunc (a / n) : ℝ)

/-- JS `Math.atan2(y, x)` on reals (signed-zero subtleties idealised:
`atan2 0 0 = 0`). -/
noncomputable def atan2 (y x : ℝ) : ℝ :=
  if 0 < x then Real.arctan (y / x)
  else if x < 0 then
    (if 0 ≤ y then Real.arctan (y / x) + Real.pi else Real.arctan (y / x) - Real.pi)
  else
    (if 0 < y then Real.pi / 2 else if y < 0 then -(Real.pi / 2) else 0)

/-- Embedding of `destination` (src/Leaflet.Antenna.js line 12-31): the
spherical-Earth direct geodesic.  Points are `(latitude, longitude)` pairs
in degrees. -/
noncomputable def destination (latlng : ℝ × ℝ) (heading distance : ℝ) : ℝ × ℝ :=
  let heading2 := jsMod (heading + 360) 360
  let rad := Real.pi / 180
  let radInv := 180 / Real.pi
  let R : ℝ := 6378137
  let lon1 := latlng.2 * rad
  let lat1 := latlng.1 * rad
  let rheading := heading2 * rad
  let sinLat1 := Real.sin lat1
  let cosLat1 := Real.cos lat1
  let cosDistR := Real.cos (distance / R)
  let sinDistR := Real.sin (distance / R)
  let lat2 := Real.arcsin (sinLat1 * cosDistR + cosLat1 * sinDistR * Real.cos rheading)
  let lon2 := lon1 + atan2 (Real.sin rheading * sinDistR * cosLat1)
    (cosDistR - sinLat1 * Real.sin lat2)
  let lon2deg := lon2 * radInv
  let lon2norm :=
    if lon2deg > 180 then lon2deg - 360 else if lon2deg < -180 then lon2deg + 360 else lon2deg
  (lat2 * radInv, lon2norm)

theorem atan2_zero_of_nonneg {x : ℝ} (hx : 0 ≤ x) : atan2 0 x = 0 := by
  unfold atan2
  rcases lt_or_eq_of_le hx with h | h
  · rw [if_pos h, zero_div, Real.arctan_zero]
  · rw [if_neg (by rw [← h]; exact lt_irrefl 0), if_neg (by rw [← h]; exact lt_irrefl 0)]
    norm_num

theorem destination_dist_zero (lat lon b : ℝ) (h1 : -90 ≤ lat) (h2 : lat ≤ 90)
    (h3 : -180 ≤ lon) (h4 : lon ≤ 180) :
    destination (lat, lon) b 0 = (lat, lon) := by
  have hpi := Real.pi_pos
  have hl : -(Real.pi / 2) ≤ lat * (Real.pi / 180) := by nlinarith
  have hr : lat * (Real.pi / 180) ≤ Real.pi / 2 := by nlinarith
  have hs1 : -1 ≤ Real.sin (lat * (Real.pi / 180)) := Real.neg_one_le_sin _
  have hs2 : Real.sin (lat * (Real.pi / 180)) ≤ 1 := Real.sin_le_one _
  have hone : (Real.pi / 180) * (180 / Real.pi) = 1 := by
    field_simp
  have hden : 0 ≤ 1 - Real.sin (lat * (Real.pi / 180)) * Real.sin (lat * (Real.pi / 180)) := by
    nlinarith [Real.sin_sq_le_one (lat * (Real.pi / 180))]
  have hlat : lat * (Real.pi / 180) * (180 / Real.pi) = lat := by
    rw [mul_assoc, hone, mul_one]
  have hlon : lon * (Real.pi / 180) * (180 / Real.pi) = lon := by
    rw [mul_assoc, hone, mul_one]
  unfold destination
  simp only [show (0 : ℝ) / 6378137 = 0 by norm_num, Real.cos_zero, Real.sin_zero,
    mul_one, mul_zero, zero_mul, add_zero, Real.sin_arcsin hs1 hs2]
  rw [Real.arcsin_sin hl hr]
  rw [atan2_zero_of_nonneg hden]
  rw [add_zero, hlat, hlon]
  rw [if_neg (not_lt.mpr h4), if_neg (not_lt.mpr h3)]

/-- The fixed sampling step of the classifier walk
(src/Leaflet.Antenna.js line 119: `let stepSize = 50`). -/
def stepSize : ℝ := 50

/-- One entry of `anglePoints`: the sampled point and its terrain height.
The geographic position is identified, per ray, by its distance from the
antenna (the code stores the latLng returned by `destination` at that
distance); `height` is `none` when the elevation provider returned NaN. -/
structure RaySample where
  latLng : ℝ
  height : Option ℝ

/-- JS `a <= b` where either side may be NaN (`none`): any comparison
involving NaN is false. -/
def jsLe : Option ℝ → Option ℝ → Prop
  | some a, some b => a ≤ b
  | _, _ => False

/-- JS `Array.prototype.every` with the element index passed to the
callback, as used on `anglePoints`; `i` is the index of the head. -/
def everyIdx {α : Type} : List α → ℕ → (α → ℕ → Prop) → Prop
  | [], _, _ => True
  | a :: t, i, p => p a i ∧ everyIdx t (i + 1) p

/-- The slope of the candidate line of sight
(`(elevationAtPoint + antInstallHeight - elevationTXAntenna) / distance`,
src/Leaflet.Antenna.js line 140); NaN elevation propagates to NaN. -/
noncomputable def slopeLineOfSight (installHeight txElev distance : ℝ)
    (elev : Option ℝ) : Option ℝ :=
  elev.map fun e => (e + installHeight - txElev) / distance

/-- Embedding of `underLineOfSight` (src/Leaflet.Antenna.js line 138-142):
`element.height <= slopeLineOfSight * (index * stepSize) + elevationTXAntenna`.
Note that the element is located at `index * stepSize` only by its position
in the `anglePoints` array, not by its stored coordinates. -/
noncomputable def underLineOfSight (installHeight txElev distance : ℝ) (elev : Option ℝ)
    (element : RaySample) (index : ℕ) : Prop :=
  jsLe element.height
    ((slopeLineOfSight installHeight txElev distance elev).map fun m =>
      m * (index * stepSize) + txElev)

/-- Embedding of `underFirstFresnelZone` (src/Leaflet.Antenna.js line
144-151): `element.height <= slopeLineOfSight * distFromTXAntenna +
elevationTXAntenna - fresnelRadius` with `distFromTXAntenna = index *
stepSize` and `fresnelRadius = 0.5475331 * sqrt (distFromTXAntenna *
(distance - distFromTXAntenna) / (frequency * distance))`. -/
noncomputable def underFirstFresnelZone (installHeight txElev frequency distance : ℝ)
    (elev : Option ℝ) (element : RaySample) (index : ℕ) : Prop :=
  jsLe element.height
    ((slopeLineOfSight installHeight txElev distance elev).map fun m =>
      m * (index * stepSize) + txElev -
        0.5475331 * Real.sqrt ((index * stepSize) * (distance - index * stepSize) /
          (frequency * distance)))

/-- Embedding of `underSecondFresnelZone` (src/Leaflet.Antenna.js line
153-160).  The source compares `element.count`, but the records stored in
`anglePoints` in this function have fields `latLng` and `height` and no
`count` field, so `element.count` is `undefined` and the JS comparison
`undefined <= slopeLineOfSight * distFromTXAntenna + elevationTXAntenna -
fresnelRadius` coerces `undefined` to NaN and is therefore false for every
element: the predicate is constantly false.  (Its radius expression,
`0.7743287 * sqrt (distFromTXAntenna * (distance - distFromTXAntenna) /
(frequency * distance))`, is dead code.) -/
def underSecondFresnelZone (_installHeight _txElev _frequency _distance : ℝ)
    (_elev : Option ℝ) (_element : RaySample) (_index : ℕ) : Prop :=
  False

/-- Second, spec-side variant of the line-of-sight test, for comparison
with the code.  Modelled from the spec: the spec's test compares each prior
sample against the sightline at that sample's actual distance from the
transmitter (its stored position), not at its array index times the step. -/
noncomputable def underLineOfSightSpec (installHeight txElev distance : ℝ) (elev : Option ℝ)
    (element : RaySample) : Prop :=
  jsLe element.height
    ((slopeLineOfSight installHeight txElev distance elev).map fun m =>
      m * element.latLng + txElev)

/-- Mutable per-ray state of the walk: `anglePoints` and `elevationMax`. -/
structure RayState where
  history : List RaySample
  elevationMax : ℝ

/-- Outcome of one loop iteration of the walk for the sampled point: pushed
to `goodReachablePoints`, `okayReachablePoints`, `badlyReachablePoints`, or
not pushed anywhere (line of sight obstructed, or elevation NaN). -/
inductive Outcome where
  | good
  | okay
  | bad
  | dropped
  deriving DecidableEq

/-- The else-branch of the loop body (src/Leaflet.Antenna.js line 136-177):
classify the candidate against every previous point, then push
`newPointWithHeight` onto `anglePoints`. -/
noncomputable def stepRayElse (installHeight txElev frequency : ℝ) (s : RayState)
    (d : ℝ) (elev : Option ℝ) : Outcome × RayState :=
  (if everyIdx s.history 0 (underLineOfSight installHeight txElev d elev) then
     if everyIdx s.history 0 (underFirstFresnelZone installHeight txElev frequency d elev) then
       if everyIdx s.history 0 (underSecondFresnelZone installHeight txElev frequency d elev) then
         Outcome.good
       else Outcome.okay
     else Outcome.bad
   else Outcome.dropped,
   { history := s.history ++ [{ latLng := d, height := elev }],
     elevationMax := s.elevationMax })

/-- One loop iteration (src/Leaflet.Antenna.js line 127-178) for the sample
at distance `d`.  `elevationAtPoint >= elevationMax` holds only for a
non-NaN elevation at least `elevationMax`; then the point is pushed to
`goodReachablePoints`, `elevationMax` is updated, and — as in the source —
`anglePoints` is NOT extended (the push at line 177 is inside the else
branch).  NaN (`none`) falls into the else branch because a JS comparison
with NaN is false. -/
noncomputable def stepRay (installHeight txElev frequency : ℝ) (s : RayState)
    (d : ℝ) : Option ℝ → Outcome × RayState
  | some e =>
      if s.elevationMax ≤ e then
        (Outcome.good, { history := s.history, elevationMax := e })
      else stepRayElse installHeight txElev frequency s d (some e)
  | none => stepRayElse installHeight txElev frequency s d none

/-- Initial per-ray state (src/Leaflet.Antenna.js line 124-125):
`anglePoints` seeded with the antenna position at height
`elevationTXAntenna`, and `elevationMax = elevationTXAntenna`. -/
def initRayState (txElev : ℝ) : RayState :=
  { history := [{ latLng := 0, height := some txElev }], elevationMax := txElev }

/-- The sampling loop of one ray, from step index `k` (the next sample is
at distance `50 * (k + 1)`), with enough fuel to exhaust the loop guard
`distance <= border`.  Returns the per-sample outcomes in order together
with the final state. -/
noncomputable def processRayGo (installHeight txElev frequency border : ℝ)
    (elevAt : ℝ → Option ℝ) : RayState → ℕ → ℕ → List (ℝ × Outcome) × RayState
  | s, _, 0 => ([], s)
  | s, k, fuel + 1 =>
      if ((50 * (k + 1) : ℝ)) ≤ border then
        let r := stepRay installHeight txElev frequency s (50 * (k + 1))
          (elevAt (50 * (k + 1)))
        let rest := processRayGo installHeight txElev frequency border elevAt r.2 (k + 1) fuel
        (((50 * (k + 1) : ℝ), r.1) :: rest.1, rest.2)
      else ([], s)

/-- The walk of one azimuth ray out to a finite border distance
(src/Leaflet.Antenna.js line 124-180): samples at 50, 100, … ≤ `border`.
`⌊border / 50⌋ + 1` fuel is enough for the loop guard to stop the
recursion, so the fuel is not what bounds the walk. -/
noncomputable def processRay (installHeight txElev frequency border : ℝ)
    (elevAt : ℝ → Option ℝ) : List (ℝ × Outcome) × RayState :=
  processRayGo installHeight txElev frequency border elevAt (initRayState txElev) 0
    (⌊border / 50⌋₊ + 1)

/-- The walk of one ray whose border distance is an arbitrary JS number.
A NaN or -Infinity border fails the guard `50 <= border` immediately (zero
samples); a +Infinity border makes the JS loop run forever, modelled as
`none` (divergence). -/
noncomputable def raySamples (installHeight txElev frequency : ℝ)
    (elevAt : ℝ → Option ℝ) : JSNum → Option (List (ℝ × Outcome) × RayState)
  | .fin b => some (processRay installHeight txElev frequency b elevAt)
  | .posInf => none
  | .negInf => some ([], initRayState txElev)
  | .nan => some ([], initRayState txElev)

/-- Reading `radiationIDif[antennaAngle]`: an out-of-range index yields
`undefined`, which enters the link-budget arithmetic as NaN. -/
def jsOfGet : Option ℝ → JSNum
  | some x => .fin x
  | none => .nan

/-- The border distances computed by `calcRadPatternBorder`
(src/Leaflet.Antenna.js line 74-84): for each of the 360 azimuths,
`maxDistance(frequency, outputPower, sensitivity, pattern[angle], gainRX)`.
(The geographic component of each border point is
`destination center (pointDir + angle) dist`, not needed here.)
No validation of the pattern length takes place. -/
noncomputable def calcRadPatternBorderDists (pattern : List ℝ)
    (outputPowerTXAntenna sensitivityRXAntenna gainRXAntenna frequency : ℝ) : List JSNum :=
  (List.range 360).map fun antennaAngle =>
    maxDistanceJS (.fin frequency) (.fin outputPowerTXAntenna) (.fin sensitivityRXAntenna)
      (jsOfGet (pattern.get? antennaAngle)) (.fin gainRXAntenna)

theorem sqrt_le_of_le_sq {x y : ℝ} (hy : 0 ≤ y) (h : x ≤ y ^ 2) : Real.sqrt x ≤ y := by
  calc Real.sqrt x ≤ Real.sqrt (y ^ 2) := Real.sqrt_le_sqrt h
  _ = y := Real.sqrt_sq hy

theorem processRayGo_succ_pos (ih txE f b : ℝ) (e : ℝ → Option ℝ) (s : RayState) (k fuel : ℕ)
    (h : (50 * (k + 1) : ℝ) ≤ b) :
    processRayGo ih txE f b e s k (fuel + 1) =
      (((50 * (k + 1) : ℝ), (stepRay ih txE f s (50 * (k + 1)) (e (50 * (k + 1)))).1) ::
        (processRayGo ih txE f b e
          (stepRay ih txE f s (50 * (k + 1)) (e (50 * (k + 1)))).2 (k + 1) fuel).1,
       (processRayGo ih txE f b e
          (stepRay ih txE f s (50 * (k + 1)) (e (50 * (k + 1)))).2 (k + 1) fuel).2) := by
  simp only [processRayGo, if_pos h]

theorem processRayGo_succ_neg (ih txE f b : ℝ) (e : ℝ → Option ℝ) (s : RayState) (k fuel : ℕ)
    (h : ¬ (50 * (k + 1) : ℝ) ≤ b) :
    processRayGo ih txE f b e s k (fuel + 1) = ([], s) := by
  simp only [processRayGo, if_neg h]

theorem processRayGo_succ_pos_elev (ih txE f b : ℝ) (e : ℝ → Option ℝ) (s : RayState)
    (k fuel : ℕ) (v : Option ℝ) (h : (50 * (k + 1) : ℝ) ≤ b)
    (hv : e (50 * (k + 1)) = v) :
    processRayGo ih txE f b e s k (fuel + 1) =
      (((50 * (k + 1) : ℝ), (stepRay ih txE f s (50 * (k + 1)) v).1) ::
        (processRayGo ih txE f b e
          (stepRay ih txE f s (50 * (k + 1)) v).2 (k + 1) fuel).1,
       (processRayGo ih txE f b e
          (stepRay ih txE f s (50 * (k + 1)) v).2 (k + 1) fuel).2) := by
  rw [processRayGo_succ_pos ih txE f b e s k fuel h, hv]

theorem guard_iff_le_floor (b : ℝ) (hb : 0 ≤ b) (k : ℕ) :
    (50 * (k + 1) : ℝ) ≤ b ↔ k + 1 ≤ ⌊b / 50⌋₊ := by
  rw [Nat.le_floor_iff (by positivity), le_div_iff₀ (by norm_num : (0:ℝ) < 50)]
  push_cast
  constructor <;> intro h <;> linarith

theorem processRayGo_distances (ih txE f b : ℝ) (e : ℝ → Option ℝ) (hb : 0 ≤ b) :
    ∀ (fuel k : ℕ) (s : RayState), ⌊b / 50⌋₊ ≤ k + fuel →
      (processRayGo ih txE f b e s k fuel).1.map Prod.fst
        = (List.range (⌊b / 50⌋₊ - k)).map
            (fun j : ℕ => (50 : ℝ) * ((k : ℝ) + (j : ℝ) + 1)) := by
  intro fuel
  induction fuel with
  | zero =>
    intro k s h
    rw [Nat.sub_eq_zero_of_le (by omega)]
    simp [processRayGo]
  | succ fuel ih2 =>
    intro k s h
    by_cases hg : (50 * (k + 1) : ℝ) ≤ b
    · rw [processRayGo_succ_pos ih txE f b e s k fuel hg]
      have hk1 : k + 1 ≤ ⌊b / 50⌋₊ := (guard_iff_le_floor b hb k).mp hg
      have hrec := ih2 (k + 1)
        (stepRay ih txE f s (50 * (k + 1)) (e (50 * (k + 1)))).2 (by omega)
      simp only [List.map_cons, hrec]
      have hsub : ⌊b / 50⌋₊ - k = (⌊b / 50⌋₊ - (k + 1)) + 1 := by omega
      rw [hsub, List.range_succ_eq_map, List.map_cons, List.map_map]
      congr 1
      · push_cast; ring
      · apply List.map_congr_left
        intro j _
        simp only [Function.comp_apply, Nat.succ_eq_add_one]
        push_cast
        ring
    · rw [processRayGo_succ_neg ih txE f b e s k fuel hg]
      have : ⌊b / 50⌋₊ ≤ k := by
        by_contra hc
        exact hg ((guard_iff_le_floor b hb k).mpr (by omega))
      rw [Nat.sub_eq_zero_of_le this]
      simp

/-- C6 (counterexample): the claim states that `maxDistance` fails with
InvalidParameterError for frequency ≤ 0 or a non-finite result.  The code
raises no error at all: for frequency 0 it evaluates to Infinity
(`Math.log10(0) = -Infinity` makes the exponent +Infinity), for a negative
frequency to NaN (both on the flat-scenario budget 27, 85, 19, 19), and a
budget producing a non-finite result — output power 10000 at frequency 1,
whose `Math.pow(10, 498.37762)` overflows the double range — likewise
returns Infinity rather than failing. -/
theorem maxDistance_nonpos_frequency_no_error :
    maxDistanceJS (.fin 0) (.fin 27) (.fin 85) (.fin 19) (.fin 19) = JSNum.posInf ∧
    maxDistanceJS (.fin (-1)) (.fin 27) (.fin 85) (.fin 19) (.fin 19) = JSNum.nan ∧
    maxDistanceJS (.fin 1) (.fin 10000) (.fin 0) (.fin 0) (.fin 0) = JSNum.posInf := by
  refine ⟨?_, ?_, ?_⟩
  · norm_num [maxDistanceJS, jsAdd, jsDiv, jsSub, jsNeg, jsLog10, jsPow10]
  · norm_num [maxDistanceJS, jsAdd, jsDiv, jsSub, jsNeg, jsLog10, jsPow10]
  · have hE : (498:ℝ) ≤ (10000 + 0 + 0 + 0) / 20 - 1.62238 - Real.logb 10 1 := by
      rw [Real.logb_one]
      norm_num
    have hov : dblMax < (10:ℝ) ^ ((10000 + 0 + 0 + 0) / 20 - 1.62238 - Real.logb 10 1) := by
      have h1 : dblMax < (10:ℝ) ^ ((498:ℕ):ℝ) := by
        rw [Real.rpow_natCast]
        unfold dblMax
        norm_num
      refine lt_of_lt_of_le h1 ((Real.rpow_le_rpow_left_iff (by norm_num : (1:ℝ) < 10)).mpr ?_)
      push_cast
      exact hE
    rw [maxDistanceJS_pos_freq 1 10000 0 0 0 (by norm_num)]
    simp only [jsPow10]
    rw [if_pos hov]

/-- C6 (amended): `maxDistance` raises no error for any input: it is total.
A frequency of 0 returns Infinity and a negative frequency NaN (see the
counterexample); for every positive frequency and finite parameters it
evaluates `Math.pow(10, budget/20 - 1.62238 - log10 frequency)`, which
overflows to Infinity when the value exceeds the largest IEEE double,
underflows to 0 when it is below the smallest positive double, and
otherwise returns the finite positive distance
`10 ^ (budget / 20 - 1.62238 - log10 frequency)` exactly. -/
theorem maxDistance_total_of_pos_frequency (f op sens gtx grx : ℝ) (hf : 0 < f) :
    (dblMax < maxDistanceR f op sens gtx grx →
      maxDistanceJS (.fin f) (.fin op) (.fin sens) (.fin gtx) (.fin grx)
        = JSNum.posInf) ∧
    (maxDistanceR f op sens gtx grx < dblMinPos →
      maxDistanceJS (.fin f) (.fin op) (.fin sens) (.fin gtx) (.fin grx)
        = JSNum.fin 0) ∧
    (dblMinPos ≤ maxDistanceR f op sens gtx grx →
      maxDistanceR f op sens gtx grx ≤ dblMax →
      maxDistanceJS (.fin f) (.fin op) (.fin sens) (.fin gtx) (.fin grx)
          = .fin (maxDistanceR f op sens gtx grx) ∧
        0 < maxDistanceR f op sens gtx grx) := by
  refine ⟨fun h => ?_, fun h => ?_, fun h1 h2 =>
    ⟨maxDistanceJS_fin f op sens gtx grx hf h1 h2, maxDistanceR_pos f op sens gtx grx⟩⟩
  · unfold maxDistanceR at h
    rw [maxDistanceJS_pos_freq f op sens gtx grx hf]
    simp only [jsPow10]
    rw [if_pos h]
  · unfold maxDistanceR at h
    rw [maxDistanceJS_pos_freq f op sens gtx grx hf]
    simp only [jsPow10]
    rw [if_neg (not_lt.mpr (le_trans (le_of_lt h) dblMinPos_le_dblMax)), if_pos h]

/-- C8: for positive frequencies, `maxDistance` is strictly increasing in
the budget sum `outputPower + gainTx + gainRx + sensitivity` (other
parameters fixed) and strictly decreasing in the frequency (budget fixed). -/
theorem maxDistance_monotone (f g op sens gtx grx op2 sens2 gtx2 grx2 : ℝ)
    (hf : 0 < f) (hg : 0 < g) :
    (op + gtx + grx + sens < op2 + gtx2 + grx2 + sens2 →
      maxDistanceR f op sens gtx grx < maxDistanceR f op2 sens2 gtx2 grx2) ∧
    (f < g →
      maxDistanceR g op sens gtx grx < maxDistanceR f op sens gtx grx) := by
  constructor
  · intro h
    unfold maxDistanceR
    rw [Real.rpow_lt_rpow_left_iff (by norm_num : (1:ℝ) < 10)]
    linarith
  · intro h
    unfold maxDistanceR
    rw [Real.rpow_lt_rpow_left_iff (by norm_num : (1:ℝ) < 10)]
    have : Real.logb 10 f < Real.logb 10 g := Real.logb_lt_logb (by norm_num) hf h
    linarith

theorem maxDistance_monotone_witness :
    (0:ℝ) < 1 ∧ (0:ℝ) < 10 ∧ (0:ℝ) + 0 + 0 + 0 < 20 + 0 + 0 + 0 ∧ (1:ℝ) < 10 ∧
    maxDistanceR 1 0 0 0 0 < maxDistanceR 1 20 0 0 0 ∧
    maxDistanceR 10 0 0 0 0 < maxDistanceR 1 0 0 0 0 :=
  ⟨by norm_num, by norm_num, by norm_num, by norm_num,
    (maxDistance_monotone 1 10 0 0 0 0 20 0 0 0 (by norm_num) (by norm_num)).1 (by norm_num),
    (maxDistance_monotone 1 10 0 0 0 0 20 0 0 0 (by norm_num) (by norm_num)).2 (by norm_num)⟩

/-- C9: for every valid origin (latitude in [-90, 90], longitude in
[-180, 180]) and every bearing, `destination` at distance 0 returns the
origin, in particular within 1e-9 degrees in each coordinate (the equality
is exact in real arithmetic). -/
theorem destination_zero_distance (lat lon b : ℝ) (h1 : -90 ≤ lat) (h2 : lat ≤ 90)
    (h3 : -180 ≤ lon) (h4 : lon ≤ 180) :
    |(destination (lat, lon) b 0).1 - lat| ≤ 1e-9 ∧
    |(destination (lat, lon) b 0).2 - lon| ≤ 1e-9 := by
  rw [destination_dist_zero lat lon b h1 h2 h3 h4]
  norm_num

theorem destination_zero_distance_witness :
    (-90 ≤ (51.33849:ℝ) ∧ (51.33849:ℝ) ≤ 90 ∧ -180 ≤ (12.40729:ℝ) ∧ (12.40729:ℝ) ≤ 180) ∧
    (|(destination (51.33849, 12.40729) 225 0).1 - 51.33849| ≤ 1e-9 ∧
     |(destination (51.33849, 12.40729) 225 0).2 - 12.40729| ≤ 1e-9) :=
  ⟨⟨by norm_num, by norm_num, by norm_num, by norm_num⟩,
    destination_zero_distance 51.33849 12.40729 225
      (by norm_num) (by norm_num) (by norm_num) (by norm_num)⟩

/-- C10: for a finite non-negative border distance the per-ray loop
terminates (the walk is defined: `some`, whereas a +Infinity border is the
diverging case `none`), and it visits exactly the distances 50, 100, …,
i.e. `⌊border / 50⌋` terrain queries; the fuel `⌊border / 50⌋ + 1` used to
define the recursion strictly dominates the loop guard, which is the
well-founded-decrease argument. -/
theorem ray_walk_terminates (ih txE f : ℝ) (e : ℝ → Option ℝ) (b : ℝ) (hb : 0 ≤ b) :
    ((raySamples ih txE f e (.fin b)).map fun r => r.1.map Prod.fst)
        = some ((List.range ⌊b / 50⌋₊).map fun j : ℕ => (50 : ℝ) * ((j : ℝ) + 1)) ∧
    ((raySamples ih txE f e (.fin b)).map fun r => r.1.length) = some ⌊b / 50⌋₊ := by
  have h := processRayGo_distances ih txE f b e hb (⌊b / 50⌋₊ + 1) 0
    (initRayState txE) (by omega)
  have h1 : (processRay ih txE f b e).1.map Prod.fst
      = (List.range ⌊b / 50⌋₊).map fun j : ℕ => (50 : ℝ) * ((j : ℝ) + 1) := by
    rw [processRay, h, Nat.sub_zero]
    apply List.map_congr_left
    intro j _
    push_cast
    ring
  constructor
  · simp only [raySamples, Option.map_some']
    rw [h1]
  · simp only [raySamples, Option.map_some']
    have := congrArg List.length h1
    simp only [List.length_map, List.length_range] at this
    rw [this]

theorem ray_walk_terminates_witness :
    (0:ℝ) ≤ 120 ∧
    ((raySamples 10 100 2.4 (fun _ => some 0) (.fin 120)).map fun r => r.1.map Prod.fst)
        = some [50, 100] := by
  have hf : ⌊(120:ℝ) / 50⌋₊ = 2 := by
    rw [Nat.floor_eq_iff (by norm_num)]
    norm_num
  refine ⟨by norm_num, ?_⟩
  rw [(ray_walk_terminates 10 100 2.4 (fun _ => some 0) 120 (by norm_num)).1, hf]
  norm_num [List.range_succ]

theorem jsAdd_nan_left (y : JSNum) : jsAdd .nan y = .nan := by
  cases y <;> rfl

theorem jsAdd_nan_right (x : JSNum) : jsAdd x .nan = .nan := by
  cases x <;> rfl

theorem underLineOfSight_false_of_none_height (ih txE d : ℝ) (e : Option ℝ)
    (el : RaySample) (i : ℕ) (h : el.height = none) :
    ¬ underLineOfSight ih txE d e el i := by
  unfold underLineOfSight
  rw [h]
  cases (slopeLineOfSight ih txE d e).map fun m => m * (i * stepSize) + txE <;>
    simp [jsLe]

theorem everyIdx_LoS_false_of_none_mem (ih txE d : ℝ) (e : Option ℝ) :
    ∀ (l : List RaySample) (i : ℕ), (∃ el ∈ l, el.height = none) →
      ¬ everyIdx l i (underLineOfSight ih txE d e) := by
  intro l
  induction l with
  | nil => intro i h; rcases h with ⟨el, hmem, _⟩; exact absurd hmem (List.not_mem_nil el)
  | cons a t ihl =>
    intro i h hev
    rcases h with ⟨el, hmem, hnone⟩
    rcases List.mem_cons.mp hmem with rfl | hmemt
    · exact underLineOfSight_false_of_none_height ih txE d e el i hnone hev.1
    · exact ihl (i + 1) ⟨el, hmemt, hnone⟩ hev.2

theorem everyIdx_LoS_false_of_none_elev (ih txE d : ℝ) :
    ∀ (l : List RaySample) (i : ℕ), l ≠ [] →
      ¬ everyIdx l i (underLineOfSight ih txE d none) := by
  intro l i hne hev
  cases l with
  | nil => exact hne rfl
  | cons a t =>
    have := hev.1
    unfold underLineOfSight slopeLineOfSight at this
    simp only [Option.map_none'] at this
    cases ha : a.height <;> rw [ha] at this <;> exact this

theorem everyIdx_secondFresnel_false (ih txE f d : ℝ) (e : Option ℝ) :
    ∀ (l : List RaySample) (i : ℕ), l ≠ [] →
      ¬ everyIdx l i (underSecondFresnelZone ih txE f d e) := by
  intro l i hne hev
  cases l with
  | nil => exact hne rfl
  | cons a t => exact hev.1

theorem stepRay_dropped_of_violation (ih txE f : ℝ) (s : RayState) (d x : ℝ)
    (hlt : x < s.elevationMax)
    (hviol : ¬ everyIdx s.history 0 (underLineOfSight ih txE d (some x))) :
    stepRay ih txE f s d (some x)
      = (Outcome.dropped,
         { history := s.history ++ [{ latLng := d, height := some x }],
           elevationMax := s.elevationMax }) := by
  simp only [stepRay]
  rw [if_neg (not_le.mpr hlt)]
  simp only [stepRayElse]
  rw [if_neg hviol]

theorem stepRay_none_dropped (ih txE f : ℝ) (s : RayState) (d : ℝ)
    (hne : s.history ≠ []) :
    stepRay ih txE f s d none
      = (Outcome.dropped,
         { history := s.history ++ [{ latLng := d, height := none }],
           elevationMax := s.elevationMax }) := by
  simp only [stepRay, stepRayElse]
  rw [if_neg (everyIdx_LoS_false_of_none_elev ih txE d s.history 0 hne)]

/-- C5 (amended): the line-of-sight test compares each prior sample against
`slope * (index * 50) + txElev` where `index` is the sample's position in
the history array (its actual distance only when no prior sample was
classified via the running-maximum branch, which skips the append); and a
candidate below the running maximum for which some prior sample violates
that test is dropped from all quality sets while still being appended to
history, and the walk continues with the next distance. -/
theorem obstructed_sample_dropped (ih txE f : ℝ) (s : RayState) (d x : ℝ)
    (hlt : x < s.elevationMax)
    (hviol : ¬ everyIdx s.history 0 (underLineOfSight ih txE d (some x))) :
    stepRay ih txE f s d (some x)
      = (Outcome.dropped,
         { history := s.history ++ [{ latLng := d, height := some x }],
           elevationMax := s.elevationMax }) :=
  stepRay_dropped_of_violation ih txE f s d x hlt hviol

theorem obstructed_sample_dropped_witness :
    (50:ℝ) < ({ history := [{ latLng := 0, height := some 100 },
        { latLng := 50, height := some 99 }], elevationMax := 100 } : RayState).elevationMax ∧
    stepRay 10 100 2.4
        { history := [{ latLng := 0, height := some 100 },
            { latLng := 50, height := some 99 }], elevationMax := 100 } 100 (some 50)
      = (Outcome.dropped,
         { history := [{ latLng := 0, height := some 100 },
             { latLng := 50, height := some 99 }, { latLng := 100, height := some 50 }],
           elevationMax := 100 }) := by
  constructor
  · norm_num
  · have hviol : ¬ everyIdx ({ history := [{ latLng := 0, height := some 100 },
        { latLng := 50, height := some 99 }], elevationMax := 100 } : RayState).history 0
        (underLineOfSight 10 100 100 (some 50)) := by
      intro hev
      have h1 := hev.2.1
      unfold underLineOfSight slopeLineOfSight at h1
      simp only [Option.map_some', jsLe, stepSize] at h1
      norm_num at h1
    rw [obstructed_sample_dropped 10 100 2.4 _ 100 50 (by norm_num) hviol]
    simp

/-- C7 (amended): a NaN elevation sample is classified into no quality set
(dropped) and the walk continues — but the NaN-height record is appended to
history and makes every later line-of-sight test on that ray fail, so every
later sample below the running maximum is dropped as well (not classified
as if the NaN sample were absent); only the running-maximum branch can
still classify later samples Good. -/
theorem nan_sample_dropped_and_poisons (ih txE f : ℝ) (s : RayState) (d : ℝ)
    (hne : s.history ≠ []) :
    (stepRay ih txE f s d none
        = (Outcome.dropped,
           { history := s.history ++ [{ latLng := d, height := none }],
             elevationMax := s.elevationMax })) ∧
    (∀ x p, ({ latLng := p, height := none } : RaySample) ∈ s.history →
      x < s.elevationMax →
      stepRay ih txE f s d (some x)
        = (Outcome.dropped,
           { history := s.history ++ [{ latLng := d, height := some x }],
             elevationMax := s.elevationMax })) := by
  constructor
  · exact stepRay_none_dropped ih txE f s d hne
  · intro x p hmem hlt
    exact stepRay_dropped_of_violation ih txE f s d x hlt
      (everyIdx_LoS_false_of_none_mem ih txE d (some x) s.history 0
        ⟨{ latLng := p, height := none }, hmem, rfl⟩)

theorem nan_sample_dropped_and_poisons_witness :
    (({ history := [{ latLng := 0, height := some 15 }, { latLng := 50, height := none }],
        elevationMax := 15 } : RayState).history ≠ []) ∧
    ((0:ℝ) < 15) ∧
    stepRay 15 15 2.4
        { history := [{ latLng := 0, height := some 15 }, { latLng := 50, height := none }],
          elevationMax := 15 } 100 (some 0)
      = (Outcome.dropped,
         { history := [{ latLng := 0, height := some 15 }, { latLng := 50, height := none },
             { latLng := 100, height := some 0 }], elevationMax := 15 }) := by
  refine ⟨by simp, by norm_num, ?_⟩
  exact (nan_sample_dropped_and_poisons 15 15 2.4 _ 100 (by simp)).2 0 50
    (by simp) (by norm_num)

/-- C1 (amended): for a candidate below the running maximum on a non-empty
history, the classifier never assigns Good: the second-Fresnel-zone
predicate reads the absent `count` field and is constantly false.  It
assigns Okay exactly when the line-of-sight test and the first
Fresnel-zone clearance hold for every prior sample, and Bad exactly when
line of sight holds but the first Fresnel-zone clearance fails. -/
theorem elseBranch_classification (ih txE f : ℝ) (s : RayState) (d x : ℝ)
    (hne : s.history ≠ []) (hlt : x < s.elevationMax) :
    (stepRay ih txE f s d (some x)).1 ≠ Outcome.good ∧
    ((stepRay ih txE f s d (some x)).1 = Outcome.okay ↔
      everyIdx s.history 0 (underLineOfSight ih txE d (some x)) ∧
      everyIdx s.history 0 (underFirstFresnelZone ih txE f d (some x))) ∧
    ((stepRay ih txE f s d (some x)).1 = Outcome.bad ↔
      everyIdx s.history 0 (underLineOfSight ih txE d (some x)) ∧
      ¬ everyIdx s.history 0 (underFirstFresnelZone ih txE f d (some x))) := by
  have hF2 := everyIdx_secondFresnel_false ih txE f d (some x) s.history 0 hne
  simp only [stepRay, stepRayElse]
  rw [if_neg (not_le.mpr hlt)]
  by_cases hLoS : everyIdx s.history 0 (underLineOfSight ih txE d (some x))
  · rw [if_pos hLoS]
    by_cases hF1 : everyIdx s.history 0 (underFirstFresnelZone ih txE f d (some x))
    · rw [if_pos hF1, if_neg hF2]
      simp [hLoS, hF1]
    · rw [if_neg hF1]
      simp [hLoS, hF1]
  · rw [if_neg hLoS]
    simp [hLoS]

theorem elseBranch_classification_witness :
    (((initRayState 100).history ≠ []) ∧ (90:ℝ) < (initRayState 100).elevationMax) ∧
    (stepRay 10 100 2.4 (initRayState 100) 50 (some 90)).1 ≠ Outcome.good := by
  refine ⟨⟨by simp [initRayState], by norm_num [initRayState]⟩, ?_⟩
  exact (elseBranch_classification 10 100 2.4 (initRayState 100) 50 90
    (by simp [initRayState]) (by norm_num [initRayState])).1

theorem stepRay_good (ih txE f : ℝ) (s : RayState) (d x : ℝ) (h : s.elevationMax ≤ x) :
    stepRay ih txE f s d (some x)
      = (Outcome.good, { history := s.history, elevationMax := x }) := by
  simp only [stepRay]
  rw [if_pos h]

theorem stepRay_below_max (ih txE f : ℝ) (s : RayState) (d x : ℝ)
    (hlt : x < s.elevationMax) :
    stepRay ih txE f s d (some x) = stepRayElse ih txE f s d (some x) := by
  simp only [stepRay]
  rw [if_neg (not_le.mpr hlt)]

theorem stepRayElse_okay (ih txE f : ℝ) (s : RayState) (d : ℝ) (e : Option ℝ)
    (hne : s.history ≠ [])
    (hLoS : everyIdx s.history 0 (underLineOfSight ih txE d e))
    (hF1 : everyIdx s.history 0 (underFirstFresnelZone ih txE f d e)) :
    stepRayElse ih txE f s d e
      = (Outcome.okay,
         { history := s.history ++ [{ latLng := d, height := e }],
           elevationMax := s.elevationMax }) := by
  simp only [stepRayElse]
  rw [if_pos hLoS, if_pos hF1,
    if_neg (everyIdx_secondFresnel_false ih txE f d e s.history 0 hne)]

theorem stepRayElse_bad (ih txE f : ℝ) (s : RayState) (d : ℝ) (e : Option ℝ)
    (hLoS : everyIdx s.history 0 (underLineOfSight ih txE d e))
    (hF1 : ¬ everyIdx s.history 0 (underFirstFresnelZone ih txE f d e)) :
    stepRayElse ih txE f s d e
      = (Outcome.bad,
         { history := s.history ++ [{ latLng := d, height := e }],
           elevationMax := s.elevationMax }) := by
  simp only [stepRayElse]
  rw [if_pos hLoS, if_neg hF1]

/-- C1 (counterexample): a candidate below the running maximum that passes
the line-of-sight test and satisfies the first Fresnel-zone clearance for
every prior sample — the claim's condition for Good — is classified Okay,
not Good: with transmitter elevation 100, install height 10, frequency 2.4
and the first sample at 50 m with elevation 90, both tests hold on the
seeded history, yet the outcome is Okay. -/
theorem firstFresnel_pass_classified_okay_not_good :
    everyIdx (initRayState 100).history 0 (underLineOfSight 10 100 50 (some 90)) ∧
    everyIdx (initRayState 100).history 0 (underFirstFresnelZone 10 100 2.4 50 (some 90)) ∧
    (stepRay 10 100 2.4 (initRayState 100) 50 (some 90)).1 = Outcome.okay := by
  have hLoS : everyIdx (initRayState 100).history 0 (underLineOfSight 10 100 50 (some 90)) := by
    simp only [initRayState, everyIdx, underLineOfSight, slopeLineOfSight, Option.map_some',
      jsLe, stepSize, and_true]
    norm_num
  have hF1 : everyIdx (initRayState 100).history 0
      (underFirstFresnelZone 10 100 2.4 50 (some 90)) := by
    simp only [initRayState, everyIdx, underFirstFresnelZone, slopeLineOfSight,
      Option.map_some', jsLe, stepSize, and_true]
    norm_num [Real.sqrt_zero]
  refine ⟨hLoS, hF1, ?_⟩
  rw [stepRay_below_max 10 100 2.4 _ 50 90 (by norm_num [initRayState]),
    stepRayElse_okay 10 100 2.4 _ 50 (some 90) (by simp [initRayState]) hLoS hF1]

theorem flat_LoS_every (c ihh d : ℝ) (hih : 0 ≤ ihh) :
    ∀ (l : List RaySample) (i : ℕ),
      (∀ el ∈ l, el.height = some c ∨ el.height = some (c + ihh)) →
      everyIdx l i (underLineOfSight ihh (c + ihh) d (some c)) := by
  intro l
  induction l with
  | nil => intro i _; trivial
  | cons a t ihl =>
    intro i hall
    refine ⟨?_, ihl (i + 1) (fun el hel => hall el (List.mem_cons_of_mem a hel))⟩
    have ha := hall a (List.mem_cons_self a t)
    unfold underLineOfSight slopeLineOfSight
    simp only [Option.map_some']
    rcases ha with h | h <;> rw [h] <;> simp only [jsLe] <;>
      rw [sub_self, zero_div, zero_mul, zero_add] <;> linarith

theorem flat_walk_aux (c ihh f b : ℝ) (hih : 0 < ihh) :
    ∀ (fuel k : ℕ) (s : RayState), s.elevationMax = c + ihh → s.history ≠ [] →
      (∀ el ∈ s.history, el.height = some c ∨ el.height = some (c + ihh)) →
      ∀ p ∈ (processRayGo ihh (c + ihh) f b (fun _ => some c) s k fuel).1,
        p.2 = Outcome.okay ∨ p.2 = Outcome.bad := by
  intro fuel
  induction fuel with
  | zero =>
    intro k s _ _ _ p hp
    simp [processRayGo] at hp
  | succ fuel ihl =>
    intro k s hmax hne hall p hp
    by_cases hg : (50 * (k + 1) : ℝ) ≤ b
    · rw [processRayGo_succ_pos ihh (c + ihh) f b (fun _ => some c) s k fuel hg] at hp
      simp only [List.mem_cons] at hp
      have hstep : stepRay ihh (c + ihh) f s (50 * (k + 1)) (some c)
          = stepRayElse ihh (c + ihh) f s (50 * (k + 1)) (some c) :=
        stepRay_below_max ihh (c + ihh) f s (50 * (k + 1)) c (by rw [hmax]; linarith)
      have hLoS := flat_LoS_every c ihh (50 * (k + 1)) (le_of_lt hih) s.history 0 hall
      have hout : (stepRayElse ihh (c + ihh) f s (50 * (k + 1)) (some c)).1 = Outcome.okay ∨
          (stepRayElse ihh (c + ihh) f s (50 * (k + 1)) (some c)).1 = Outcome.bad := by
        by_cases hF1 : everyIdx s.history 0
            (underFirstFresnelZone ihh (c + ihh) f (50 * (k + 1)) (some c))
        · left
          rw [stepRayElse_okay ihh (c + ihh) f s (50 * (k + 1)) (some c) hne hLoS hF1]
        · right
          rw [stepRayElse_bad ihh (c + ihh) f s (50 * (k + 1)) (some c) hLoS hF1]
      have hstate : (stepRayElse ihh (c + ihh) f s (50 * (k + 1)) (some c)).2
          = { history := s.history ++ [{ latLng := 50 * (k + 1), height := some c }],
              elevationMax := s.elevationMax } := by
        by_cases hF1 : everyIdx s.history 0
            (underFirstFresnelZone ihh (c + ihh) f (50 * (k + 1)) (some c))
        · rw [stepRayElse_okay ihh (c + ihh) f s (50 * (k + 1)) (some c) hne hLoS hF1]
        · rw [stepRayElse_bad ihh (c + ihh) f s (50 * (k + 1)) (some c) hLoS hF1]
      rcases hp with hp | hp
      · rw [hp]
        simp only [hstep]
        exact hout
      · refine ihl (k + 1) (stepRay ihh (c + ihh) f s (50 * (k + 1)) (some c)).2 ?_ ?_ ?_ p ?_
        · rw [hstep, hstate, hmax]
        · rw [hstep, hstate]
          simp
        · rw [hstep, hstate]
          intro el hel
          simp only [List.mem_append, List.mem_singleton] at hel
          rcases hel with hel | hel
          · exact hall el hel
          · rw [hel]
            left
            rfl
        · exact hp
    · rw [processRayGo_succ_neg ihh (c + ihh) f b (fun _ => some c) s k fuel hg] at hp
      simp at hp

/-- C2 (amended): in the flat-terrain scenario with a positive install
height, no sampled ground point is ever classified Good: the constant
terrain elevation is strictly below the running maximum (which starts at
terrain + install height), so every sample takes the else branch, where the
line-of-sight test always passes and the outcome is Okay or Bad depending
on the first Fresnel-zone clearance (Good would require the constantly
false second-zone predicate).  Only a non-positive install height would
classify every point Good via the running-maximum branch. -/
theorem flat_terrain_positive_height_okay_or_bad (c ihh f b : ℝ) (hih : 0 < ihh) :
    ∀ p ∈ (processRay ihh (c + ihh) f b (fun _ => some c)).1,
      p.2 = Outcome.okay ∨ p.2 = Outcome.bad := by
  apply flat_walk_aux c ihh f b hih (⌊b / 50⌋₊ + 1) 0 (initRayState (c + ihh)) rfl
  · simp [initRayState]
  · intro el hel
    simp only [initRayState, List.mem_singleton] at hel
    rw [hel]
    right
    rfl

theorem border_flat_ge_50 : (50:ℝ) ≤ maxDistanceR 2.4 27 85 19 19 := by
  have hlog : Real.logb 10 2.4 ≤ 1 := by
    have h1 : Real.log 2.4 ≤ Real.log 10 := by
      apply Real.log_le_log (by norm_num) (by norm_num)
    have h2 : 0 < Real.log 10 := Real.log_pos (by norm_num)
    rw [Real.logb, div_le_one h2]
    exact h1
  have h2 : (2:ℝ) ≤ (27 + 19 + 19 + 85) / 20 - 1.62238 - Real.logb 10 2.4 := by
    norm_num
    linarith
  unfold maxDistanceR
  calc (50:ℝ) ≤ 100 := by norm_num
  _ = (10:ℝ) ^ (2:ℝ) := by
      rw [show (2:ℝ) = ((2:ℕ):ℝ) by norm_num, Real.rpow_natCast]
      norm_num
  _ ≤ (10:ℝ) ^ ((27 + 19 + 19 + 85) / 20 - 1.62238 - Real.logb 10 2.4) :=
      (Real.rpow_le_rpow_left_iff (by norm_num : (1:ℝ) < 10)).mpr h2

theorem border_flat_ge_dblMinPos : dblMinPos ≤ maxDistanceR 2.4 27 85 19 19 := by
  refine le_trans ?_ border_flat_ge_50
  unfold dblMinPos
  norm_num

theorem border_flat_le_dblMax : maxDistanceR 2.4 27 85 19 19 ≤ dblMax := by
  have hlogb : 0 ≤ Real.logb 10 2.4 := Real.logb_nonneg (by norm_num) (by norm_num)
  unfold maxDistanceR dblMax
  calc (10:ℝ) ^ ((27 + 19 + 19 + 85) / 20 - 1.62238 - Real.logb 10 2.4)
      ≤ (10:ℝ) ^ (6:ℝ) :=
        (Real.rpow_le_rpow_left_iff (by norm_num : (1:ℝ) < 10)).mpr (by
          norm_num
          linarith)
    _ = 1000000 := by
        rw [show (6:ℝ) = ((6:ℕ):ℝ) by norm_num, Real.rpow_natCast]
        norm_num
    _ ≤ 2 ^ 1024 - 2 ^ 971 := by norm_num

theorem maxDistance_total_of_pos_frequency_witness :
    (0:ℝ) < 2.4 ∧
    dblMinPos ≤ maxDistanceR 2.4 27 85 19 19 ∧
    maxDistanceR 2.4 27 85 19 19 ≤ dblMax ∧
    (maxDistanceJS (.fin 2.4) (.fin 27) (.fin 85) (.fin 19) (.fin 19)
        = .fin (maxDistanceR 2.4 27 85 19 19) ∧
      0 < maxDistanceR 2.4 27 85 19 19) :=
  ⟨by norm_num, border_flat_ge_dblMinPos, border_flat_le_dblMax,
    (maxDistance_total_of_pos_frequency 2.4 27 85 19 19 (by norm_num)).2.2
      border_flat_ge_dblMinPos border_flat_le_dblMax⟩

theorem stepRay_flat15 (d : ℝ) :
    stepRay 15 15 2.4 (initRayState 15) d (some 0)
      = (Outcome.okay,
         { history := [{ latLng := 0, height := some 15 }, { latLng := d, height := some 0 }],
           elevationMax := 15 }) := by
  have hLoS : everyIdx (initRayState 15).history 0 (underLineOfSight 15 15 d (some 0)) := by
    simp only [initRayState, everyIdx, underLineOfSight, slopeLineOfSight, Option.map_some',
      jsLe, stepSize, and_true]
    norm_num
  have hF1 : everyIdx (initRayState 15).history 0
      (underFirstFresnelZone 15 15 2.4 d (some 0)) := by
    simp only [initRayState, everyIdx, underFirstFresnelZone, slopeLineOfSight,
      Option.map_some', jsLe, stepSize, and_true]
    norm_num [Real.sqrt_zero]
  rw [stepRay_below_max 15 15 2.4 _ d 0 (by norm_num [initRayState]),
    stepRayElse_okay 15 15 2.4 _ d (some 0) (by simp [initRayState]) hLoS hF1]
  simp [initRayState]

theorem flat_run_50 :
    (processRay 15 15 2.4 50 (fun _ => some 0)).1 = [((50:ℝ), Outcome.okay)] := by
  have hfloor : ⌊(50:ℝ) / 50⌋₊ = 1 := by
    rw [show (50:ℝ)/50 = 1 by norm_num]
    exact Nat.floor_one
  unfold processRay
  rw [hfloor]
  rw [processRayGo_succ_pos 15 15 2.4 50 (fun _ => some 0) (initRayState 15) 0 1
    (by push_cast; norm_num)]
  simp only []
  rw [stepRay_flat15]
  rw [processRayGo_succ_neg 15 15 2.4 50 (fun _ => some 0) _ 1 0
    (by push_cast; norm_num)]
  norm_num

/-- C2 (counterexample): in the flat-terrain scenario of the claim
(constant elevation 0, install height 15, profile outputPower 27, gain 19,
sensitivity 85, frequency 2.4, so transmitter elevation 15 and border
distance maxDistance(2.4, 27, 85, 19, 19) ≥ 50 m), the very first sampled
ground point of a ray, at 50 m, is classified Okay — not Good as the claim
requires for every sampled point. -/
theorem flat_scenario_first_sample_not_good :
    (50:ℝ) ≤ maxDistanceR 2.4 27 85 19 19 ∧
    (processRay 15 15 2.4 (maxDistanceR 2.4 27 85 19 19) (fun _ => some 0)).1.head?
      = some ((50:ℝ), Outcome.okay) := by
  refine ⟨border_flat_ge_50, ?_⟩
  unfold processRay
  rw [processRayGo_succ_pos 15 15 2.4 (maxDistanceR 2.4 27 85 19 19) (fun _ => some 0)
    (initRayState 15) 0 ⌊maxDistanceR 2.4 27 85 19 19 / 50⌋₊
    (by have := border_flat_ge_50; push_cast; linarith)]
  simp only []
  rw [stepRay_flat15]
  norm_num

theorem flat_terrain_positive_height_okay_or_bad_witness :
    (0:ℝ) < 15 ∧
    ((50:ℝ), Outcome.okay) ∈ (processRay 15 (0 + 15) 2.4 50 (fun _ => some 0)).1 ∧
    (((50:ℝ), Outcome.okay).2 = Outcome.okay ∨ ((50:ℝ), Outcome.okay).2 = Outcome.bad) := by
  have hmem : ((50:ℝ), Outcome.okay) ∈ (processRay 15 (0 + 15) 2.4 50 (fun _ => some 0)).1 := by
    rw [show (0:ℝ) + 15 = 15 by norm_num, flat_run_50]
    simp
  exact ⟨by norm_num, hmem,
    flat_terrain_positive_height_okay_or_bad 0 15 2.4 50 (by norm_num) _ hmem⟩

theorem stepRay_spike (d : ℝ) :
    stepRay 10 100 2.4 (initRayState 100) d (some 150)
      = (Outcome.good,
         { history := [{ latLng := 0, height := some 100 }], elevationMax := 150 }) := by
  rw [stepRay_good 10 100 2.4 (initRayState 100) d 150
    (by show (100:ℝ) ≤ 150; norm_num)]
  simp [initRayState]

/-- C4: on the ray with transmitter elevation 100, install height 10 and
border 50 whose single sample at 50 m has elevation 150 (at or above the
running maximum, hence classified Good), the pair (50, 150) is absent from
the final history: the push onto `anglePoints` sits inside the else branch
only, so the running-maximum branch never appends.  This contradicts the
spec's append-regardless rule, which the index-based distances of the
clearance predicates themselves assume. -/
theorem running_max_sample_not_in_history :
    processRay 10 100 2.4 50 (fun d => if d = 50 then some 150 else some 0)
      = ([((50:ℝ), Outcome.good)],
         { history := [{ latLng := 0, height := some 100 }], elevationMax := 150 }) ∧
    ({ latLng := (50:ℝ), height := some (150:ℝ) } : RaySample) ∉
      (processRay 10 100 2.4 50 (fun d => if d = 50 then some 150 else some 0)).2.history := by
  have hfloor : ⌊(50:ℝ) / 50⌋₊ = 1 := by
    rw [show (50:ℝ)/50 = 1 by norm_num]
    exact Nat.floor_one
  have heq : processRay 10 100 2.4 50 (fun d => if d = 50 then some 150 else some 0)
      = ([((50:ℝ), Outcome.good)],
         { history := [{ latLng := 0, height := some 100 }], elevationMax := 150 }) := by
    unfold processRay
    rw [hfloor]
    rw [processRayGo_succ_pos_elev 10 100 2.4 50 (fun d => if d = 50 then some 150 else some 0)
      (initRayState 100) 0 1 (some 150) (by push_cast; norm_num) (by norm_num)]
    rw [stepRay_spike]
    rw [processRayGo_succ_neg 10 100 2.4 50 (fun d => if d = 50 then some 150 else some 0)
      _ 1 0 (by push_cast; norm_num)]
    norm_num
  refine ⟨heq, ?_⟩
  rw [heq]
  simp only [List.mem_singleton, RaySample.mk.injEq]
  norm_num

theorem stepRay_c5_second (d : ℝ) :
    stepRay 10 100 2.4
        { history := [{ latLng := 0, height := some 100 }], elevationMax := 150 } d (some 90)
      = (Outcome.okay,
         { history := [{ latLng := 0, height := some 100 }, { latLng := d, height := some 90 }],
           elevationMax := 150 }) := by
  have hLoS : everyIdx [({ latLng := 0, height := some 100 } : RaySample)] 0
      (underLineOfSight 10 100 d (some 90)) := by
    simp only [everyIdx, underLineOfSight, slopeLineOfSight, Option.map_some', jsLe,
      stepSize, and_true]
    norm_num
  have hF1 : everyIdx [({ latLng := 0, height := some 100 } : RaySample)] 0
      (underFirstFresnelZone 10 100 2.4 d (some 90)) := by
    simp only [everyIdx, underFirstFresnelZone, slopeLineOfSight, Option.map_some', jsLe,
      stepSize, and_true]
    norm_num [Real.sqrt_zero]
  rw [stepRay_below_max 10 100 2.4 _ d 90 (by show (90:ℝ) < 150; norm_num),
    stepRayElse_okay 10 100 2.4 _ d (some 90) (by simp) hLoS hF1]
  simp

theorem stepRay_c5_third (q d : ℝ) (hd : d = 150) :
    stepRay 10 100 2.4
        { history := [{ latLng := 0, height := some 100 }, { latLng := q, height := some 90 }],
          elevationMax := 150 } d (some 70)
      = (Outcome.okay,
         { history := [{ latLng := 0, height := some 100 }, { latLng := q, height := some 90 },
             { latLng := d, height := some 70 }],
           elevationMax := 150 }) := by
  subst hd
  have hLoS : everyIdx [({ latLng := 0, height := some 100 } : RaySample),
      { latLng := q, height := some 90 }] 0 (underLineOfSight 10 100 150 (some 70)) := by
    simp only [everyIdx, underLineOfSight, slopeLineOfSight, Option.map_some', jsLe,
      stepSize, and_true]
    push_cast
    norm_num
  have hF1 : everyIdx [({ latLng := 0, height := some 100 } : RaySample),
      { latLng := q, height := some 90 }] 0
      (underFirstFresnelZone 10 100 2.4 150 (some 70)) := by
    simp only [everyIdx, underFirstFresnelZone, slopeLineOfSight, Option.map_some', jsLe,
      stepSize, and_true]
    push_cast
    norm_num [Real.sqrt_zero]
    have h9 : Real.sqrt 9 = 3 := by
      rw [show (9:ℝ) = 3 ^ 2 by norm_num, Real.sqrt_sq (by norm_num : (0:ℝ) ≤ 3)]
    have h125 : Real.sqrt 125 ≤ 12 := sqrt_le_of_le_sq (by norm_num) (by norm_num)
    have hnn : 0 ≤ Real.sqrt 125 := Real.sqrt_nonneg _
    rw [h9]
    linarith
  rw [stepRay_below_max 10 100 2.4 _ 150 70 (by show (70:ℝ) < 150; norm_num),
    stepRayElse_okay 10 100 2.4 _ 150 (some 70) (by simp) hLoS hF1]
  simp

/-- C5 (counterexample): on the ray with transmitter elevation 100, install
height 10, frequency 2.4, border 150, and terrain 150 / 90 / 70 at 50 / 100
/ 150 m: the 150 m sample's line-of-sight test against the stored prior
sample (actual distance 100 m, elevation 90) is violated (90 > slope·100 +
100 = 86.67), yet the code classifies the sample Okay instead of dropping
it, because the 50 m sample was classified via the running-maximum branch
and never appended, so the stored sample sits at index 1 and is tested at
index·50 = 50 m (sightline 93.33) instead of its actual 100 m. -/
theorem index_distance_mismatch_classified :
    (processRay 10 100 2.4 150
        (fun d => if d = 50 then some 150 else if d = 100 then some 90 else some 70)).1
      = [((50:ℝ), Outcome.good), ((100:ℝ), Outcome.okay), ((150:ℝ), Outcome.okay)] ∧
    (processRay 10 100 2.4 150
        (fun d => if d = 50 then some 150 else if d = 100 then some 90 else some 70)).2.history
      = [{ latLng := 0, height := some 100 }, { latLng := 100, height := some 90 },
         { latLng := 150, height := some 70 }] ∧
    ¬ underLineOfSightSpec 10 100 150 (some 70) { latLng := 100, height := some 90 } := by
  have hfloor : ⌊(150:ℝ) / 50⌋₊ = 3 := by
    rw [Nat.floor_eq_iff (by norm_num)]
    norm_num
  have heval : processRay 10 100 2.4 150
      (fun d => if d = 50 then some 150 else if d = 100 then some 90 else some 70)
      = ([((50:ℝ), Outcome.good), ((100:ℝ), Outcome.okay), ((150:ℝ), Outcome.okay)],
         { history := [{ latLng := 0, height := some 100 }, { latLng := 100, height := some 90 },
             { latLng := 150, height := some 70 }],
           elevationMax := 150 }) := by
    unfold processRay
    rw [hfloor]
    rw [processRayGo_succ_pos_elev 10 100 2.4 150
      (fun d => if d = 50 then some 150 else if d = 100 then some 90 else some 70)
      (initRayState 100) 0 3 (some 150) (by push_cast; norm_num) (by norm_num)]
    rw [stepRay_spike]
    rw [processRayGo_succ_pos_elev 10 100 2.4 150
      (fun d => if d = 50 then some 150 else if d = 100 then some 90 else some 70)
      _ 1 2 (some 90) (by push_cast; norm_num) (by norm_num)]
    rw [stepRay_c5_second]
    rw [processRayGo_succ_pos_elev 10 100 2.4 150
      (fun d => if d = 50 then some 150 else if d = 100 then some 90 else some 70)
      _ 2 1 (some 70) (by push_cast; norm_num) (by norm_num)]
    rw [stepRay_c5_third _ _ (by push_cast; norm_num)]
    rw [processRayGo_succ_neg 10 100 2.4 150
      (fun d => if d = 50 then some 150 else if d = 100 then some 90 else some 70)
      _ 3 0 (by push_cast; norm_num)]
    norm_num
  refine ⟨by rw [heval], by rw [heval], ?_⟩
  unfold underLineOfSightSpec slopeLineOfSight
  simp only [Option.map_some', jsLe]
  norm_num

theorem stepRay_nan_first (d : ℝ) :
    stepRay 15 15 2.4 (initRayState 15) d none
      = (Outcome.dropped,
         { history := [{ latLng := 0, height := some 15 }, { latLng := d, height := none }],
           elevationMax := 15 }) := by
  rw [stepRay_none_dropped 15 15 2.4 (initRayState 15) d (by simp [initRayState])]
  simp [initRayState]

theorem stepRay_after_nan (p q d : ℝ) :
    stepRay 15 15 2.4
        { history := [{ latLng := p, height := some 15 }, { latLng := q, height := none }],
          elevationMax := 15 } d (some 0)
      = (Outcome.dropped,
         { history := [{ latLng := p, height := some 15 }, { latLng := q, height := none },
             { latLng := d, height := some 0 }],
           elevationMax := 15 }) := by
  rw [stepRay_dropped_of_violation 15 15 2.4 _ d 0 (by show (0:ℝ) < 15; norm_num)
    (everyIdx_LoS_false_of_none_mem 15 15 d (some 0) _ 0
      ⟨{ latLng := q, height := none }, by simp, rfl⟩)]
  simp

theorem stepRay_flat15_later (p q d : ℝ) (hd : d = 100) :
    stepRay 15 15 2.4
        { history := [{ latLng := p, height := some 15 }, { latLng := q, height := some 0 }],
          elevationMax := 15 } d (some 0)
      = (Outcome.okay,
         { history := [{ latLng := p, height := some 15 }, { latLng := q, height := some 0 },
             { latLng := d, height := some 0 }],
           elevationMax := 15 }) := by
  subst hd
  have hLoS : everyIdx [({ latLng := p, height := some 15 } : RaySample),
      { latLng := q, height := some 0 }] 0 (underLineOfSight 15 15 100 (some 0)) := by
    simp only [everyIdx, underLineOfSight, slopeLineOfSight, Option.map_some', jsLe,
      stepSize, and_true]
    push_cast
    norm_num
  have hF1 : everyIdx [({ latLng := p, height := some 15 } : RaySample),
      { latLng := q, height := some 0 }] 0
      (underFirstFresnelZone 15 15 2.4 100 (some 0)) := by
    simp only [everyIdx, underFirstFresnelZone, slopeLineOfSight, Option.map_some', jsLe,
      stepSize, and_true]
    push_cast
    norm_num [Real.sqrt_zero]
    have h9 : Real.sqrt 9 = 3 := by
      rw [show (9:ℝ) = 3 ^ 2 by norm_num, Real.sqrt_sq (by norm_num : (0:ℝ) ≤ 3)]
    have h125 : Real.sqrt 125 ≤ 12 := sqrt_le_of_le_sq (by norm_num) (by norm_num)
    have h12 : (3:ℝ) ≤ Real.sqrt 12 := by
      have := Real.sqrt_le_sqrt (by norm_num : (9:ℝ) ≤ 12)
      linarith [h9 ▸ this]
    have hq : Real.sqrt 125 / Real.sqrt 12 ≤ 12 / 3 :=
      div_le_div (by norm_num) h125 (by norm_num) h12
    linarith
  rw [stepRay_below_max 15 15 2.4 _ 100 0 (by show (0:ℝ) < 15; norm_num),
    stepRayElse_okay 15 15 2.4 _ 100 (some 0) (by simp) hLoS hF1]
  simp

/-- C7 (counterexample): on the flat ray (transmitter elevation 15, install
height 15, frequency 2.4, border 100) whose interior sample at 50 m is
NaN, both the NaN sample and the later valid sample at 100 m are dropped
(the NaN record in history makes the 100 m line-of-sight test fail),
whereas the identical ray without the NaN classifies both samples Okay: the
later valid sample is not classified as it would be with the unavailable
sample excluded from the comparisons. -/
theorem nan_interior_sample_poisons_ray :
    (processRay 15 15 2.4 100 (fun d => if d = 50 then none else some 0)).1
      = [((50:ℝ), Outcome.dropped), ((100:ℝ), Outcome.dropped)] ∧
    (processRay 15 15 2.4 100 (fun _ => some 0)).1
      = [((50:ℝ), Outcome.okay), ((100:ℝ), Outcome.okay)] := by
  have hfloor : ⌊(100:ℝ) / 50⌋₊ = 2 := by
    rw [Nat.floor_eq_iff (by norm_num)]
    norm_num
  constructor
  · unfold processRay
    rw [hfloor]
    rw [processRayGo_succ_pos_elev 15 15 2.4 100 (fun d => if d = 50 then none else some 0)
      (initRayState 15) 0 2 none (by push_cast; norm_num) (by norm_num)]
    rw [stepRay_nan_first]
    rw [processRayGo_succ_pos_elev 15 15 2.4 100 (fun d => if d = 50 then none else some 0)
      _ 1 1 (some 0) (by push_cast; norm_num) (by norm_num)]
    rw [stepRay_after_nan]
    rw [processRayGo_succ_neg 15 15 2.4 100 (fun d => if d = 50 then none else some 0)
      _ 2 0 (by push_cast; norm_num)]
    norm_num
  · unfold processRay
    rw [hfloor]
    rw [processRayGo_succ_pos_elev 15 15 2.4 100 (fun _ => some 0)
      (initRayState 15) 0 2 (some 0) (by push_cast; norm_num) (by norm_num)]
    rw [stepRay_flat15]
    rw [processRayGo_succ_pos_elev 15 15 2.4 100 (fun _ => some 0)
      _ 1 1 (some 0) (by push_cast; norm_num) (by norm_num)]
    rw [stepRay_flat15_later _ _ _ (by push_cast; norm_num)]
    rw [processRayGo_succ_neg 15 15 2.4 100 (fun _ => some 0)
      _ 2 0 (by push_cast; norm_num)]
    norm_num

theorem maxDistanceJS_nan_gain (f op sens grx : ℝ) :
    maxDistanceJS (.fin f) (.fin op) (.fin sens) .nan (.fin grx) = .nan := by
  simp [maxDistanceJS, jsSub, jsAdd_nan_left, jsAdd_nan_right, jsDiv, jsPow10]

theorem borderDists_length (pattern : List ℝ) (op sens grx f : ℝ) :
    (calcRadPatternBorderDists pattern op sens grx f).length = 360 := by
  simp [calcRadPatternBorderDists]

theorem borderDists_get (pattern : List ℝ) (op sens grx f : ℝ) (a : ℕ) (ha : a < 360) :
    (calcRadPatternBorderDists pattern op sens grx f).get? a
      = some (maxDistanceJS (.fin f) (.fin op) (.fin sens)
          (jsOfGet (pattern.get? a)) (.fin grx)) := by
  unfold calcRadPatternBorderDists
  rw [List.get?_map, List.get?_range ha]
  rfl

theorem processRay_length (ih txE f b : ℝ) (e : ℝ → Option ℝ) (hb : 0 ≤ b) :
    (processRay ih txE f b e).1.length = ⌊b / 50⌋₊ := by
  have h := processRayGo_distances ih txE f b e hb (⌊b / 50⌋₊ + 1) 0 (initRayState txE)
    (by omega)
  have h2 := congrArg List.length h
  simpa [processRay] using h2

/-- C3 (amended): no pattern-length validation exists and no error is
raised: with a 359-entry pattern the border computation completes with 360
entries, index 359 reads `undefined` (NaN in the budget arithmetic) so that
azimuth's border distance is NaN, and the NaN-border ray samples no points
(the loop guard `50 <= NaN` is false) while all other azimuths proceed
normally; terrain queries are still issued for them. -/
theorem short_pattern_nan_border (pattern : List ℝ) (hlen : pattern.length = 359)
    (op sens grx f ihh txE fr : ℝ) (elevAt : ℝ → Option ℝ) :
    (calcRadPatternBorderDists pattern op sens grx f).length = 360 ∧
    (calcRadPatternBorderDists pattern op sens grx f).get? 359 = some JSNum.nan ∧
    raySamples ihh txE fr elevAt JSNum.nan = some ([], initRayState txE) := by
  refine ⟨borderDists_length pattern op sens grx f, ?_, rfl⟩
  rw [borderDists_get pattern op sens grx f 359 (by norm_num)]
  rw [List.get?_eq_none.mpr (by omega)]
  rw [show jsOfGet none = JSNum.nan from rfl]
  rw [maxDistanceJS_nan_gain]

theorem short_pattern_nan_border_witness :
    (List.replicate 359 (19:ℝ)).length = 359 ∧
    ((calcRadPatternBorderDists (List.replicate 359 (19:ℝ)) 27 85 19 2.4).length = 360 ∧
     (calcRadPatternBorderDists (List.replicate 359 (19:ℝ)) 27 85 19 2.4).get? 359
        = some JSNum.nan ∧
     raySamples 15 15 2.4 (fun _ => some 0) JSNum.nan = some ([], initRayState 15)) :=
  ⟨by rw [List.length_replicate],
   short_pattern_nan_border (List.replicate 359 (19:ℝ)) (by rw [List.length_replicate])
     27 85 19 2.4 15 15 2.4 (fun _ => some 0)⟩

/-- C3 (counterexample): with the 359-entry constant pattern of 19 dBi and
profile (27, 85, 19, 2.4), the coverage computation does not fail: the
border list is built (index 359 is NaN, index 0 is the finite flat-scenario
distance), and the ray at azimuth 0 issues at least one terrain-elevation
query (its walk has at least one sample), contradicting the claim that an
InvalidConfigurationError occurs before any terrain query. -/
theorem short_pattern_no_error_and_queries :
    (calcRadPatternBorderDists (List.replicate 359 (19:ℝ)) 27 85 19 2.4).get? 359
        = some JSNum.nan ∧
    (calcRadPatternBorderDists (List.replicate 359 (19:ℝ)) 27 85 19 2.4).get? 0
        = some (JSNum.fin (maxDistanceR 2.4 27 85 19 19)) ∧
    1 ≤ (processRay 15 15 2.4 (maxDistanceR 2.4 27 85 19 19) (fun _ => some 0)).1.length := by
  refine ⟨?_, ?_, ?_⟩
  · rw [borderDists_get (List.replicate 359 (19:ℝ)) 27 85 19 2.4 359 (by norm_num)]
    rw [List.get?_eq_none.mpr (by rw [List.length_replicate])]
    rw [show jsOfGet none = JSNum.nan from rfl]
    rw [maxDistanceJS_nan_gain]
  · rw [borderDists_get (List.replicate 359 (19:ℝ)) 27 85 19 2.4 0 (by norm_num)]
    rw [show (List.replicate 359 (19:ℝ)).get? 0 = some 19 from rfl]
    rw [show jsOfGet (some (19:ℝ)) = JSNum.fin 19 from rfl]
    rw [maxDistanceJS_fin 2.4 27 85 19 19 (by norm_num)
      border_flat_ge_dblMinPos border_flat_le_dblMax]
  · rw [processRay_length 15 15 2.4 _ (fun _ => some 0)
      (le_of_lt (maxDistanceR_pos 2.4 27 85 19 19))]
    apply Nat.le_floor
    rw [Nat.cast_one, le_div_iff₀ (by norm_num : (0:ℝ) < 50)]
    linarith [border_flat_ge_50]

end LeafletAntenna
